import Mathlib

/-!
Shallow embedding of the MTM education booking form core
(store validation, payload builders, availability checker and
submission orchestration), together with proofs of the spec claims.

Sources embedded:
  * src/src/store/bookingStore.ts   (state, isStep1Valid, isStep2Valid,
                                     goToNextStep, prepare*Data)
  * src/src/utils/constants.ts      (FORM_CONFIG)
  * api endpoints file              (bookingApi.checkSeatAvailability,
                                     bookingApi.submitBooking)
-/

namespace MtmForm

/-- Constant `FORM_CONFIG` from constants.ts. -/
structure FormConfig where
  MAX_GROUPS : Nat
  MAX_GROUP_SIZE : Int
  MAX_STUDENTS_SIZE : Int

def FORM_CONFIG : FormConfig :=
  { MAX_GROUPS := 3, MAX_GROUP_SIZE := 340, MAX_STUDENTS_SIZE := 200 }

/-- Interface `GroupData` from bookingStore.ts.  `Toelichting?: string` is `Option`;
`selectedScreeningId: string | null` is `Option String`; the `stad` union
type `'Amsterdam' | 'Den Haag' | ''` is embedded as `String`. -/
structure GroupData where
  id : String
  Aantal_leerlingen_studenten : Int
  educationTypeIds : List Int
  educationTypeNames : List String
  Toelichting : Option String
  Aantal_begeleiders : Int
  stad : String
  selectedScreeningId : Option String
deriving DecidableEq, Repr

/-- Interface `TeacherData` from bookingStore.ts. -/
structure TeacherData where
  First_name : String
  Middle_name : String
  Last_name : String
  Email_work : String
  Mobile_phone : String
  Newsletter_education : Bool
deriving DecidableEq, Repr

/-- Interface `SchoolData` from bookingStore.ts.  `Factuuradres_keuze: '0' | '1'`
is embedded as `String`. -/
structure SchoolData where
  lookupId : Option Int
  selectedSchoolName : String
  School_staat_niet_in_lijst : Bool
  schoolName : String
  schoolAdres : String
  schoolType : Option Int
  bekendFactuuradres : Bool
  existingFactuuradres : String
  Factuuradres_keuze : String
  Factuuradres : String
  Factuurreferentie : String
  E_mailadres_voor_factuur : String
deriving DecidableEq, Repr

/-- Interface `BookingFormData` from bookingStore.ts (the persisted form state). -/
structure BookingFormData where
  currentStep : Nat
  introText : String
  logoUrl : String
  groups : List GroupData
  teacher : TeacherData
  school : SchoolData
  Naam_tweede_contactpersoon : String
  Betalen_met_CJP : Bool
  CJP_nummer : String
  Opmerkingen : String
  Akkoord_privacyverklaring : Bool
  Akkoord_algemene_voorwaarden : Bool
  Soort_aanmelding : String
  Status : String
deriving DecidableEq, Repr

/-! ## Step-1 validation (bookingStore.ts, isStep1Valid) -/

/-- The MBO/ISK restricted education-type ids from isStep1Valid:
`const mboIskIds = [3, 14, 24, 29]`. -/
def mboIskIds : List Int := [3, 14, 24, 29]

/-- Conjunct `hasBasicInfo` of isStep1Valid (per group). -/
def hasBasicInfo (g : GroupData) : Bool :=
  decide (g.Aantal_leerlingen_studenten > 0) &&
  decide (g.educationTypeIds.length > 0) &&
  decide (g.Aantal_begeleiders > 0) &&
  decide (g.stad.length > 0) &&
  g.selectedScreeningId.isSome

/-- Predicate `needsToelichting` from isStep1Valid:
`group.educationTypeIds.some(id => mboIskIds.includes(id))`. -/
def needsToelichting (g : GroupData) : Bool :=
  g.educationTypeIds.any (fun i => mboIskIds.contains i)

/-- Predicate `hasRequiredToelichting` from isStep1Valid:
`!needsToelichting || (group.Toelichting && group.Toelichting.length > 0)`.
In JS an `undefined` or empty-string `Toelichting` is falsy. -/
def hasRequiredToelichting (g : GroupData) : Bool :=
  !needsToelichting g ||
    (match g.Toelichting with
     | some t => decide (t.length > 0)
     | none => false)

/-- Predicate `withinLimit` from isStep1Valid:
`totalPeople <= FORM_CONFIG.MAX_GROUP_SIZE`. -/
def withinLimit (g : GroupData) : Bool :=
  decide (g.Aantal_leerlingen_studenten + g.Aantal_begeleiders ≤
    FORM_CONFIG.MAX_GROUP_SIZE)

/-- The per-group body of the `groups.every(...)` in isStep1Valid. -/
def groupStep1Valid (g : GroupData) : Bool :=
  hasBasicInfo g && hasRequiredToelichting g && withinLimit g

/-- Function `isStep1Valid` from bookingStore.ts: every group passes. -/
def isStep1Valid (groups : List GroupData) : Bool :=
  groups.all groupStep1Valid

/-! ## Step navigation (bookingStore.ts, goToNextStep) -/

/-- Action `goToNextStep` from bookingStore.ts: advances from step 1 to step 2
only when isStep1Valid holds; otherwise the state is untouched. -/
def goToNextStep (st : BookingFormData) : BookingFormData :=
  if st.currentStep = 1 && isStep1Valid st.groups then
    { st with currentStep := 2 }
  else
    st

/-! ## Step-2 validation (bookingStore.ts, isStep2Valid) -/

/-- Character class `[^\s@]` of the email regex in isStep2Valid. -/
def isEmailChar (c : Char) : Bool :=
  !c.isWhitespace && c ≠ '@'

/-- Backtracking matcher for `p+` followed by a continuation `k` on the
rest of the input: at least one character satisfying `p` is consumed. -/
def matchPlusThen (p : Char → Bool) (k : List Char → Bool) :
    List Char → Bool
  | [] => false
  | c :: cs => p c && (k cs || matchPlusThen p k cs)

/-- The email test of isStep2Valid:
`/^[^\s@]+@[^\s@]+\.[^\s@]+$/.test(email)`, i.e. the whole string is
`[^\s@]+` then `@` then `[^\s@]+` then `.` then `[^\s@]+`. -/
def isValidEmail (s : String) : Bool :=
  matchPlusThen isEmailChar (fun r1 =>
    match r1 with
    | '@' :: r2 =>
      matchPlusThen isEmailChar (fun r3 =>
        match r3 with
        | '.' :: r4 => matchPlusThen isEmailChar (·.isEmpty) r4
        | _ => false) r2
    | _ => false) s.data

/-- Function `isStep2Valid` from bookingStore.ts.  JS falsiness of
`school.E_mailadres_voor_factuur` and `Betalen_met_CJP` is rendered
explicitly (empty string ~ falsy). -/
def isStep2Valid (st : BookingFormData) : Bool :=
  let teacherValid :=
    decide (st.teacher.Last_name.length > 0) &&
    decide (st.teacher.Email_work.length > 0) &&
    isValidEmail st.teacher.Email_work &&
    decide (st.teacher.Mobile_phone.length > 0)
  let invoiceEmailValid :=
    decide (st.school.E_mailadres_voor_factuur = "") ||
    isValidEmail st.school.E_mailadres_voor_factuur
  let schoolValid :=
    st.school.lookupId.isSome ||
    (st.school.School_staat_niet_in_lijst &&
     decide (st.school.schoolName.length > 0) &&
     st.school.schoolType.isSome)
  let checkboxesValid :=
    st.Akkoord_algemene_voorwaarden && st.Akkoord_privacyverklaring
  let cjpValid := !st.Betalen_met_CJP || decide (st.CJP_nummer.length > 0)
  teacherValid && schoolValid && checkboxesValid && cjpValid &&
    invoiceEmailValid

/-! ## Payload builders (bookingStore.ts, prepare*Data) -/

/-- JS `x || null` on a string field: empty string becomes null. -/
def strOrNull (s : String) : Option String :=
  if s = "" then none else some s

/-- Payload of preparePersonData (bookingStore.ts). -/
structure PersonPayload where
  First_name : String
  Middle_name : Option String
  Last_name : String
  Email_work : String
  Mobile_phone : String
  Newsletter_education_ : Bool
  AVG : Bool
  «Type» : Int
  Other_school : String
deriving DecidableEq, Repr

/-- Function `preparePersonData` from bookingStore.ts. -/
def preparePersonData (st : BookingFormData) : PersonPayload :=
  let schoolName :=
    if st.school.School_staat_niet_in_lijst then st.school.schoolName
    else st.school.selectedSchoolName
  { First_name := st.teacher.First_name
    Middle_name := strOrNull st.teacher.Middle_name
    Last_name := st.teacher.Last_name
    Email_work := st.teacher.Email_work
    Mobile_phone := st.teacher.Mobile_phone
    Newsletter_education_ := st.teacher.Newsletter_education
    AVG := st.Akkoord_privacyverklaring
    «Type» := 56
    Other_school := schoolName }

/-- Payload of prepareOrganisationData (bookingStore.ts):
`{ Name, Type: [schoolType] }`. -/
structure OrganisationPayload where
  Name : String
  «Type» : List Int
deriving DecidableEq, Repr

/-- Function `prepareOrganisationData` from bookingStore.ts.  The JS guard
`if (!school.School_staat_niet_in_lijst || !school.schoolType) return null`
treats both `null` and `0` as falsy `schoolType`. -/
def prepareOrganisationData (st : BookingFormData) :
    Option OrganisationPayload :=
  if !st.school.School_staat_niet_in_lijst ∨
     st.school.schoolType = none ∨ st.school.schoolType = some 0 then
    none
  else
    match st.school.schoolType with
    | some t => some { Name := st.school.schoolName, «Type» := [t] }
    | none => none

/-- Payload of prepareAanmeldingData (bookingStore.ts). -/
structure AanmeldingPayload where
  Naam_contactpersoon : String
  E_mailadres : String
  Telefoonnummer : String
  School : Option Int
  School_staat_niet_in_lijst : Bool
  School_invul : Option String
  Factuuradres_keuze : String
  Factuuradres : Option String
  Factuurreferentie : Option String
  E_mailadres_voor_factuur : Option String
  Naam_tweede_contactpersoon : Option String
  Betalen_met_CJP : Bool
  CJP_nummer : Option String
  Opmerkingen : Option String
  Akkoord_algemene_voorwaarden : Bool
  Soort_aanmelding : String
  Status : String
  Docent : Option Int
deriving DecidableEq, Repr

/-- Function `prepareAanmeldingData` from bookingStore.ts. -/
def prepareAanmeldingData (st : BookingFormData) : AanmeldingPayload :=
  { Naam_contactpersoon :=
      st.teacher.First_name ++
      (if st.teacher.Middle_name ≠ "" then " " ++ st.teacher.Middle_name
       else "") ++ " " ++ st.teacher.Last_name
    E_mailadres := st.teacher.Email_work
    Telefoonnummer := st.teacher.Mobile_phone
    School := st.school.lookupId
    School_staat_niet_in_lijst := st.school.School_staat_niet_in_lijst
    School_invul :=
      if st.school.School_staat_niet_in_lijst then
        some (st.school.schoolName ++ "\n" ++ st.school.schoolAdres).trim
      else none
    Factuuradres_keuze := st.school.Factuuradres_keuze
    Factuuradres :=
      if st.school.Factuuradres_keuze = "1" then
        some st.school.Factuuradres
      else none
    Factuurreferentie := strOrNull st.school.Factuurreferentie
    E_mailadres_voor_factuur := strOrNull st.school.E_mailadres_voor_factuur
    Naam_tweede_contactpersoon := strOrNull st.Naam_tweede_contactpersoon
    Betalen_met_CJP := st.Betalen_met_CJP
    CJP_nummer := if st.Betalen_met_CJP then some st.CJP_nummer else none
    Opmerkingen := strOrNull st.Opmerkingen
    Akkoord_algemene_voorwaarden := st.Akkoord_algemene_voorwaarden
    Soort_aanmelding := st.Soort_aanmelding
    Status := st.Status
    Docent := none }

/-! ## JS helpers used by the orchestration code -/

/-- JS `parseInt` on a string (radix 10): trim, optional sign, leading
digits; `none` models `NaN`. -/
def parseIntJS (s : String) : Option Int :=
  let cs := s.trim.data
  let signed : Int × List Char :=
    match cs with
    | '-' :: r => (-1, r)
    | '+' :: r => (1, r)
    | r => (1, r)
  let digits := signed.2.takeWhile Char.isDigit
  if digits.isEmpty then none
  else some (signed.1 *
    (digits.foldl (fun a c => a * 10 + (c.toNat - '0'.toNat)) 0 : Nat))

/-- JS `hay.includes(needle)` on strings. -/
def containsStr (hay needle : String) : Bool :=
  decide (needle.data <:+: hay.data)

/-! ## Submission orchestration (bookingApi.submitBooking) -/

/-- A thrown backend error; only its `message` is inspected by the code. -/
structure ApiError where
  message : String
deriving DecidableEq, Repr

/-- Junction-record payload built in step 4 of submitBooking
(`Aanmelding educatie - Educatie screening`). -/
structure LinkPayload where
  Aanmelding_educatie : Option Int
  Screening : Option Int
  Aantal_leerlingen_studenten : Int
  Aantal_begeleiders : Int
  Onderwijssoorten : List Int
  Toelichting : Option String
deriving DecidableEq, Repr

/-- One `apiClient.createRecord` call issued by submitBooking, tagged by
record class. -/
inductive ApiCall where
  | org (d : OrganisationPayload)
  | person (d : PersonPayload)
  | aanmelding (d : AanmeldingPayload)
  | link (d : LinkPayload)
deriving DecidableEq, Repr

/-- The remote record store: each createRecord call either returns the
new record id or throws an `ApiError`. -/
structure Backend where
  createOrganisation : OrganisationPayload → Except ApiError String
  createPerson : PersonPayload → Except ApiError String
  createAanmelding : AanmeldingPayload → Except ApiError String
  createLink : LinkPayload → Except ApiError String

/-- Argument record of submitBooking (`formData`). -/
structure SubmitFormData where
  personData : PersonPayload
  organisationData : Option OrganisationPayload
  aanmeldingData : AanmeldingPayload
  groups : List GroupData
deriving Repr

/-- Result shape of submitBooking:
`{ success, bookingId?, error? }`. -/
structure SubmitResult where
  success : Bool
  bookingId : Option String
  error : Option String
deriving DecidableEq, Repr

/-- The translated duplicate-school message thrown by submitBooking when
Organisation creation reports a unique-fields violation on Naam/Subnaam. -/
def duplicateSchoolMsg : String :=
  "Een school met deze naam bestaat al. Kies een andere naam of selecteer de bestaande school uit de lijst."

/-- Error message produced by the Organisation-creation catch block of
submitBooking:  JS `error.message || 'Onbekende fout'` falls back on an
empty message. -/
def orgFailureMsg (e : ApiError) : String :=
  if containsStr e.message "Geen unieke waarden voor de velden" &&
     (containsStr e.message "Naam" || containsStr e.message "Subnaam") then
    duplicateSchoolMsg
  else
    "School kon niet worden aangemaakt: " ++
      (if e.message = "" then "Onbekende fout" else e.message)

/-- Link payload for one group in step 4 of submitBooking.
`Toelichting: group.Toelichting || null` maps `undefined` and `''` to
null; `parseInt` of a `null` screening id is `NaN` (`none`). -/
def mkLinkPayload (bookingId : String) (g : GroupData) : LinkPayload :=
  { Aanmelding_educatie := parseIntJS bookingId
    Screening :=
      match g.selectedScreeningId with
      | some s => parseIntJS s
      | none => none
    Aantal_leerlingen_studenten := g.Aantal_leerlingen_studenten
    Aantal_begeleiders := g.Aantal_begeleiders
    Onderwijssoorten := g.educationTypeIds
    Toelichting :=
      match g.Toelichting with
      | some t => strOrNull t
      | none => none }

/-- First rejection among the concurrently-issued link creations of
step 4 (`Promise.all` rejects with the first failure; all requests are
issued regardless).  Returns the 0-based index and the error. -/
def firstLinkError (bk : Backend) : List LinkPayload → Nat →
    Option (Nat × ApiError)
  | [], _ => none
  | d :: ds, i =>
    match bk.createLink d with
    | .error e => some (i, e)
    | .ok _ => firstLinkError bk ds (i + 1)

/-- Steps 3 and 4 of submitBooking: create the `Aanmelding educatie`
record with the resolved Docent/School references, then one junction
record per group. -/
def submitFromAanmelding (bk : Backend) (fd : SubmitFormData)
    (organisationId : Option Int) (personId : String)
    (tr : List ApiCall) : SubmitResult × List ApiCall :=
  let aanmeldingWithRefs : AanmeldingPayload :=
    { fd.aanmeldingData with
        Docent := parseIntJS personId
        School := organisationId }
  match bk.createAanmelding aanmeldingWithRefs with
  | .error e =>
    ({ success := false, bookingId := none
       error := some ("Aanmelding kon niet worden aangemaakt: " ++
         (if e.message = "" then "Onbekende fout" else e.message)) },
     tr ++ [.aanmelding aanmeldingWithRefs])
  | .ok bookingId =>
    let linkPayloads := fd.groups.map (mkLinkPayload bookingId)
    let tr2 := tr ++ [.aanmelding aanmeldingWithRefs] ++
      linkPayloads.map ApiCall.link
    match firstLinkError bk linkPayloads 0 with
    | none => ({ success := true, bookingId := some bookingId
                 error := none }, tr2)
    | some (i, e) =>
      ({ success := false, bookingId := none
         error := some ("Koppeling met filmvertoning " ++
           toString (i + 1) ++ " mislukt: " ++
           (if e.message = "" then "Onbekende fout" else e.message)) },
       tr2)

/-- Step 2 of submitBooking: create the Person (teacher) record; abort
with an attributed message on failure. -/
def submitFromPerson (bk : Backend) (fd : SubmitFormData)
    (organisationId : Option Int) (tr : List ApiCall) :
    SubmitResult × List ApiCall :=
  match bk.createPerson fd.personData with
  | .error e =>
    ({ success := false, bookingId := none
       error := some ("Docent kon niet worden aangemaakt: " ++
         (if e.message = "" then "Onbekende fout" else e.message)) },
     tr ++ [.person fd.personData])
  | .ok personId =>
    submitFromAanmelding bk fd organisationId personId
      (tr ++ [.person fd.personData])

/-- Function `bookingApi.submitBooking`: Organisation → Person → Aanmelding →
screening links, failing fast.  The second component is the ordered
trace of createRecord calls actually issued. -/
def submitBooking (bk : Backend) (fd : SubmitFormData) :
    SubmitResult × List ApiCall :=
  match fd.organisationData with
  | none => submitFromPerson bk fd fd.aanmeldingData.School []
  | some od =>
    match bk.createOrganisation od with
    | .error e =>
      ({ success := false, bookingId := none
         error := some (orgFailureMsg e) }, [.org od])
    | .ok orgId => submitFromPerson bk fd (parseIntJS orgId) [.org od]

/-! ## Seat availability (bookingApi.checkSeatAvailability) -/

/-- Input pair of checkSeatAvailability:
`{ selectedScreeningId: string; totalPeople: number }`. -/
structure SeatGroup where
  selectedScreeningId : String
  totalPeople : Int
deriving DecidableEq, Repr

/-- The screening data fetched by checkSeatAvailability:
`resultFields: ['Id', 'Beschikbare_plekken_educatie']` (the API returns
the id as lowercase `id`). -/
structure ScreeningCap where
  id : Int
  Beschikbare_plekken_educatie : Option Int
deriving DecidableEq, Repr

/-- One conflict entry `{ screeningId, available, requested }`. -/
structure SeatConflict where
  screeningId : String
  available : Int
  requested : Int
deriving DecidableEq, Repr

/-- Result shape `{ available, conflicts }` of checkSeatAvailability. -/
structure AvailabilityResult where
  available : Bool
  conflicts : List SeatConflict
deriving DecidableEq, Repr

/-- JS `[...new Set(xs)]`: deduplicate keeping first occurrences. -/
def uniqueFirstAux [DecidableEq α] (seen : List α) : List α → List α
  | [] => []
  | x :: xs =>
    if x ∈ seen then uniqueFirstAux seen xs
    else x :: uniqueFirstAux (x :: seen) xs

def uniqueFirst [DecidableEq α] (l : List α) : List α :=
  uniqueFirstAux [] l

/-- Model of `Promise.all` over the per-id capacity queries: succeeds with the
list of per-query record lists, or propagates the first error. -/
def collectFetches (fetch : String → Except ApiError (List ScreeningCap)) :
    List String → Except ApiError (List (List ScreeningCap))
  | [] => .ok []
  | i :: is =>
    match fetch i with
    | .error e => .error e
    | .ok r =>
      match collectFetches fetch is with
      | .error e => .error e
      | .ok rs => .ok (r :: rs)

/-- Function `bookingApi.checkSeatAvailability`.  The backend query keyed by one
screening id (`filter: Id equals parseInt(id)` with the two result
fields) is abstracted as `fetch`.  On any query failure the catch block
returns `{ available: false, conflicts: [] }`. -/
def checkSeatAvailability
    (fetch : String → Except ApiError (List ScreeningCap))
    (groups : List SeatGroup) : AvailabilityResult :=
  let screeningIds := groups.map (·.selectedScreeningId)
  let uniqueScreeningIds := uniqueFirst screeningIds
  match collectFetches fetch uniqueScreeningIds with
  | .error _ => { available := false, conflicts := [] }
  | .ok results =>
    let screenings := results.flatten
    let conflicts := groups.filterMap (fun g =>
      match screenings.find?
          (fun s => toString s.id == g.selectedScreeningId) with
      | some s =>
        match s.Beschikbare_plekken_educatie with
        | some avail =>
          if avail < g.totalPeople then
            some { screeningId := g.selectedScreeningId
                   available := avail
                   requested := g.totalPeople }
          else none
        | none => none
      | none => none)
    { available := conflicts.isEmpty, conflicts := conflicts }

/-- Modelled from the spec (§4.2 contract): the conflicts list keeps, in
order, exactly the input pairs whose capacity figure is non-null and
strictly below the requested headcount — each pair judged independently
against the same capacity figure `cap`. -/
def specConflicts (cap : String → Option Int) (groups : List SeatGroup) :
    List SeatConflict :=
  groups.filterMap (fun g =>
    match cap g.selectedScreeningId with
    | some avail =>
      if avail < g.totalPeople then
        some { screeningId := g.selectedScreeningId
               available := avail
               requested := g.totalPeople }
      else none
    | none => none)

/-! ## Further definitions used by the claim statements -/

/-- The `initialState` literal of bookingStore.ts. -/
def initialState : BookingFormData :=
  { currentStep := 1
    introText := ""
    logoUrl := ""
    groups := [
      { id := "group1"
        Aantal_leerlingen_studenten := 0
        educationTypeIds := []
        educationTypeNames := []
        Toelichting := some ""
        Aantal_begeleiders := 0
        stad := ""
        selectedScreeningId := none }]
    teacher :=
      { First_name := "", Middle_name := "", Last_name := ""
        Email_work := "", Mobile_phone := "", Newsletter_education := false }
    school :=
      { lookupId := none, selectedSchoolName := ""
        School_staat_niet_in_lijst := false, schoolName := ""
        schoolAdres := "", schoolType := none, bekendFactuuradres := false
        existingFactuuradres := "", Factuuradres_keuze := "0"
        Factuuradres := "", Factuurreferentie := ""
        E_mailadres_voor_factuur := "" }
    Naam_tweede_contactpersoon := ""
    Betalen_met_CJP := false
    CJP_nummer := ""
    Opmerkingen := ""
    Akkoord_privacyverklaring := false
    Akkoord_algemene_voorwaarden := false
    Soort_aanmelding := "0"
    Status := "0" }

/-- Overwrite a group's justification text (the field edit the C5 claim
talks about, all other fields held constant). -/
def setToelichting (g : GroupData) (t : String) : GroupData :=
  { g with Toelichting := some t }

/-! Concrete sample data used by witnesses and counterexamples. -/

/-- A group exceeding the 340-person cap, all other fields filled. -/
def w4group : GroupData :=
  { id := "group1", Aantal_leerlingen_studenten := 300
    educationTypeIds := [1], educationTypeNames := ["havo 3"]
    Toelichting := some "", Aantal_begeleiders := 41
    stad := "Amsterdam", selectedScreeningId := some "12" }

/-- A restricted-category (MBO id 3) group with empty justification,
all other fields valid. -/
def w5group : GroupData :=
  { id := "group1", Aantal_leerlingen_studenten := 12
    educationTypeIds := [3], educationTypeNames := ["mbo"]
    Toelichting := some "", Aantal_begeleiders := 2
    stad := "Den Haag", selectedScreeningId := some "8" }

/-- A group meeting every step-1 requirement except that the supervisor
count is zero. -/
def w8group : GroupData :=
  { id := "group1", Aantal_leerlingen_studenten := 10
    educationTypeIds := [1], educationTypeNames := ["havo 3"]
    Toelichting := some "", Aantal_begeleiders := 0
    stad := "Amsterdam", selectedScreeningId := some "12" }

/-- A form state choosing "same as school" for the billing address while
the in-memory manual billing-address text is non-empty. -/
def w6state : BookingFormData :=
  { initialState with
      currentStep := 2
      school :=
        { initialState.school with
            lookupId := some 7
            selectedSchoolName := "Het Lyceum"
            bekendFactuuradres := true
            existingFactuuradres := "Plein 1 Den Haag"
            Factuuradres_keuze := "0"
            Factuuradres := "Oude straat 99" } }

/-- A form state with an existing school selected *and* the "school is
not listed" flag on with a complete manual entry; isStep2Valid accepts
it through the lookup disjunct. -/
def w7state : BookingFormData :=
  { initialState with
      currentStep := 2
      teacher :=
        { First_name := "Piet", Middle_name := "", Last_name := "Jansen"
          Email_work := "p.jansen@school.nl"
          Mobile_phone := "0612345678", Newsletter_education := false }
      school :=
        { initialState.school with
            lookupId := some 3
            selectedSchoolName := "Bestaande School"
            School_staat_niet_in_lijst := true
            schoolName := "Handmatige School"
            schoolAdres := "Straat 1"
            schoolType := some 2 }
      Akkoord_privacyverklaring := true
      Akkoord_algemene_voorwaarden := true }

/-- Like `w7state` but respecting the UI invariant: manual entry active
and no lookup reference. -/
def w7stateManual : BookingFormData :=
  { w7state with
      school := { w7state.school with lookupId := none } }

/-- Backend whose Organisation creation throws a generic error. -/
def w1backend : Backend :=
  { createOrganisation := fun _ => .error { message := "Serverfout 500" }
    createPerson := fun _ => .ok "11"
    createAanmelding := fun _ => .ok "12"
    createLink := fun _ => .ok "13" }

/-- Backend whose Organisation creation throws the backend's
unique-fields violation for Naam. -/
def w3backend : Backend :=
  { createOrganisation := fun _ =>
      .error { message := "Geen unieke waarden voor de velden Naam" }
    createPerson := fun _ => .ok "11"
    createAanmelding := fun _ => .ok "12"
    createLink := fun _ => .ok "13" }

/-- A submission with a new-school Organisation payload. -/
def wSubmitData : SubmitFormData :=
  { personData := preparePersonData w7stateManual
    organisationData := some { Name := "Handmatige School", «Type» := [2] }
    aanmeldingData := prepareAanmeldingData w7stateManual
    groups := [w4group] }

/-- Capacity oracle for the seat-availability witness: screening "5" has
40 seats, screening "6" has no capacity figure. -/
def w2fetch : String → Except ApiError (List ScreeningCap) := fun i =>
  if i = "5" then .ok [{ id := 5, Beschikbare_plekken_educatie := some 40 }]
  else if i = "6" then .ok [{ id := 6, Beschikbare_plekken_educatie := none }]
  else .error { message := "unknown screening" }

def w2num : String → Int := fun i => if i = "5" then 5 else 6

def w2cap : String → Option Int := fun i =>
  if i = "5" then some 40 else if i = "6" then none else none

/-- Two groups on screening "5" (one over, one under capacity) and a
large group on uncapacitated screening "6". -/
def w2groups : List SeatGroup :=
  [ { selectedScreeningId := "5", totalPeople := 50 }
  , { selectedScreeningId := "5", totalPeople := 30 }
  , { selectedScreeningId := "6", totalPeople := 500 } ]

/-- Fetch function that throws for every screening id. -/
def w10fetch : String → Except ApiError (List ScreeningCap) := fun _ =>
  .error { message := "network down" }

/-! ## Helper lemmas -/

theorem mem_uniqueFirstAux [DecidableEq α] (a : α) (seen : List α) :
    ∀ l : List α, a ∈ uniqueFirstAux seen l ↔ (a ∈ l ∧ a ∉ seen) := by
  intro l
  induction l generalizing seen with
  | nil => simp [uniqueFirstAux]
  | cons x xs ih =>
    unfold uniqueFirstAux
    by_cases hx : x ∈ seen
    · rw [if_pos hx, ih]
      constructor
      · rintro ⟨h1, h2⟩
        exact ⟨List.mem_cons_of_mem x h1, h2⟩
      · rintro ⟨h1, h2⟩
        rcases List.mem_cons.mp h1 with rfl | h1
        · exact absurd hx h2
        · exact ⟨h1, h2⟩
    · rw [if_neg hx]
      simp only [List.mem_cons, ih]
      constructor
      · rintro (rfl | ⟨h1, h2⟩)
        · exact ⟨Or.inl rfl, hx⟩
        · exact ⟨Or.inr h1, fun hs => h2 (Or.inr hs)⟩
      · rintro ⟨rfl | h1, h2⟩
        · exact Or.inl rfl
        · by_cases hax : a = x
          · exact Or.inl hax
          · exact Or.inr ⟨h1, fun hs => hs.elim hax h2⟩

theorem mem_uniqueFirst [DecidableEq α] (a : α) (l : List α) :
    a ∈ uniqueFirst l ↔ a ∈ l := by
  unfold uniqueFirst
  rw [mem_uniqueFirstAux]
  simp

theorem collectFetches_error
    (fetch : String → Except ApiError (List ScreeningCap))
    (i : String) (e : ApiError) (hi : fetch i = .error e) :
    ∀ l : List String, i ∈ l →
      ∃ e2, collectFetches fetch l = .error e2 := by
  intro l
  induction l with
  | nil => simp
  | cons x xs ih =>
    intro hmem
    unfold collectFetches
    rcases List.mem_cons.mp hmem with rfl | hmem
    · rw [hi]
      exact ⟨e, rfl⟩
    · cases hx : fetch x with
      | error e2 => exact ⟨e2, rfl⟩
      | ok r =>
        obtain ⟨e2, h2⟩ := ih hmem
        rw [h2]
        exact ⟨e2, rfl⟩

theorem collectFetches_ok
    (fetch : String → Except ApiError (List ScreeningCap))
    (F : String → List ScreeningCap) :
    ∀ l : List String, (∀ i ∈ l, fetch i = .ok (F i)) →
      collectFetches fetch l = .ok (l.map F) := by
  intro l
  induction l with
  | nil => intro _; rfl
  | cons x xs ih =>
    intro h
    unfold collectFetches
    rw [h x (List.mem_cons_self x xs), ih (fun i hi => h i (List.mem_cons_of_mem x hi))]
    rfl

theorem flatten_map_singleton (f : α → β) :
    ∀ l : List α, (l.map (fun a => [f a])).flatten = l.map f := by
  intro l
  induction l with
  | nil => rfl
  | cons x xs ih => simp [ih]

theorem filterMap_congr_mem (f g : α → Option β) :
    ∀ l : List α, (∀ a ∈ l, f a = g a) → l.filterMap f = l.filterMap g := by
  intro l
  induction l with
  | nil => intro _; rfl
  | cons x xs ih =>
    intro h
    rw [List.filterMap_cons, List.filterMap_cons,
      h x (List.mem_cons_self x xs), ih (fun a ha => h a (List.mem_cons_of_mem x ha))]

/-! ## Claim theorems -/

/-- C4: a group whose student count plus supervisor count exceeds 340
(`FORM_CONFIG.MAX_GROUP_SIZE`) makes isStep1Valid return false for any
form state containing that group, regardless of every other field of
that group and of the other groups. -/
theorem group_cap_fails_step1 (groups : List GroupData) (g : GroupData)
    (hmem : g ∈ groups)
    (hover : g.Aantal_leerlingen_studenten + g.Aantal_begeleiders > 340) :
    isStep1Valid groups = false := by
  cases h : isStep1Valid groups with
  | false => rfl
  | true =>
    exfalso
    have hg := List.all_eq_true.mp h g hmem
    unfold groupStep1Valid at hg
    simp only [Bool.and_eq_true] at hg
    have hw := hg.2
    unfold withinLimit FORM_CONFIG at hw
    simp only [decide_eq_true_eq] at hw
    omega

/-- Witness for C4 at a 341-person group. -/
theorem group_cap_fails_step1_witness :
    w4group ∈ [w4group] ∧
    w4group.Aantal_leerlingen_studenten + w4group.Aantal_begeleiders > 340 ∧
    isStep1Valid [w4group] = false :=
  ⟨List.mem_singleton.mpr rfl, by decide,
    group_cap_fails_step1 [w4group] w4group
      (List.mem_singleton.mpr rfl) (by decide)⟩

/-- C6: when the billing-address-source flag is "0" (same as school),
the booking payload's Factuuradres field is null, whatever the
in-memory manual address text holds. -/
theorem factuuradres_nulled (st : BookingFormData)
    (h : st.school.Factuuradres_keuze = "0") :
    (prepareAanmeldingData st).Factuuradres = none := by
  simp [prepareAanmeldingData, h]

/-- Witness for C6 at a state whose stale manual address is non-empty. -/
theorem factuuradres_nulled_witness :
    w6state.school.Factuuradres_keuze = "0" ∧
    w6state.school.Factuuradres ≠ "" ∧
    (prepareAanmeldingData w6state).Factuuradres = none :=
  ⟨rfl, by decide, factuuradres_nulled w6state rfl⟩

/-- C9: when step-1 validation fails or the current step is not 1,
goToNextStep leaves the whole form state unchanged. -/
theorem goToNextStep_noop (st : BookingFormData)
    (h : isStep1Valid st.groups = false ∨ st.currentStep ≠ 1) :
    goToNextStep st = st := by
  unfold goToNextStep
  rcases h with h | h <;> simp [h]

/-- Witness for C9 at the initial state (whose single default group is
step-1-invalid). -/
theorem goToNextStep_noop_witness :
    (isStep1Valid initialState.groups = false ∨
      initialState.currentStep ≠ 1) ∧
    goToNextStep initialState = initialState :=
  ⟨Or.inl (by decide), goToNextStep_noop initialState (Or.inl (by decide))⟩

/-- C8 counterexample: a group with students ≥ 1, a (non-restricted)
category, a region and a screening selected, total within the cap and
no justification needed — yet with zero supervisors isStep1Valid
rejects it, because the code requires `Aantal_begeleiders > 0`. -/
theorem supervisors_zero_rejected :
    w8group.Aantal_leerlingen_studenten ≥ 1 ∧
    w8group.educationTypeIds ≠ [] ∧
    w8group.stad ≠ "" ∧
    w8group.selectedScreeningId ≠ none ∧
    w8group.Aantal_leerlingen_studenten + w8group.Aantal_begeleiders ≤ 340 ∧
    hasRequiredToelichting w8group = true ∧
    w8group.Aantal_begeleiders = 0 ∧
    isStep1Valid [w8group] = false := by
  decide

/-- C8 amended: for a group meeting the claim's other conditions the
supervisor count must be at least 1: with zero supervisors isStep1Valid
rejects the group, with any supervisor count ≥ 1 it accepts it. -/
theorem supervisors_min_one (g : GroupData)
    (hstud : g.Aantal_leerlingen_studenten ≥ 1)
    (hedu : g.educationTypeIds.length > 0)
    (hstad : g.stad.length > 0)
    (hscr : g.selectedScreeningId.isSome = true)
    (hcap : g.Aantal_leerlingen_studenten + g.Aantal_begeleiders ≤ 340)
    (htoe : hasRequiredToelichting g = true) :
    (g.Aantal_begeleiders = 0 → isStep1Valid [g] = false) ∧
    (g.Aantal_begeleiders ≥ 1 → isStep1Valid [g] = true) := by
  constructor
  · intro h0
    have hb : hasBasicInfo g = false := by
      unfold hasBasicInfo
      rw [h0]
      simp
    simp [isStep1Valid, groupStep1Valid, hb]
  · intro h1
    have hb : hasBasicInfo g = true := by
      unfold hasBasicInfo
      rw [hscr]
      simp only [Bool.and_true, Bool.and_eq_true, decide_eq_true_eq]
      exact ⟨⟨⟨by omega, hedu⟩, by omega⟩, hstad⟩
    have hw : withinLimit g = true := by
      unfold withinLimit FORM_CONFIG
      simpa using hcap
    simp [isStep1Valid, groupStep1Valid, hb, htoe, hw]

/-- Witness for the amended C8: `w8group` with zero supervisors is
rejected; the same group with two supervisors is accepted. -/
theorem supervisors_min_one_witness :
    isStep1Valid [w8group] = false ∧
    isStep1Valid [{ w8group with Aantal_begeleiders := 2 }] = true := by
  have hz := supervisors_min_one w8group (by decide) (by decide)
    (by decide) (by decide) (by decide) (by decide)
  have ho := supervisors_min_one { w8group with Aantal_begeleiders := 2 }
    (by decide) (by decide) (by decide) (by decide) (by decide) (by decide)
  exact ⟨hz.1 rfl, ho.2 (by decide)⟩

/-- C5: a group (at position `i`) with a restricted category (ids 3, 14,
24, 29) and an empty justification makes isStep1Valid false; holding
every other field of that group and of the other groups constant, any
non-empty justification makes isStep1Valid true (given the group and
the other groups are otherwise step-1-valid). -/
theorem toelichting_conditional (gs : List GroupData) (i : Nat)
    (hi : i < gs.length) (t : String)
    (hres : needsToelichting gs[i] = true) :
    ((gs[i].Toelichting = none ∨ gs[i].Toelichting = some "") →
      isStep1Valid gs = false) ∧
    (0 < t.length →
     hasBasicInfo gs[i] = true →
     withinLimit gs[i] = true →
     (∀ j, (hj : j < gs.length) → j ≠ i → groupStep1Valid gs[j] = true) →
     isStep1Valid (gs.set i (setToelichting gs[i] t)) = true) := by
  constructor
  · intro hemp
    have hreq : hasRequiredToelichting gs[i] = false := by
      rcases hemp with h | h <;> simp [hasRequiredToelichting, hres, h]
    cases hval : isStep1Valid gs with
    | false => rfl
    | true =>
      exfalso
      have hg := List.all_eq_true.mp hval gs[i]
        (List.getElem_mem hi)
      simp [groupStep1Valid, hreq] at hg
  · intro ht hbasic hlimit hothers
    have hnew : groupStep1Valid (setToelichting gs[i] t) = true := by
      have h3 : hasRequiredToelichting (setToelichting gs[i] t) = true := by
        unfold hasRequiredToelichting setToelichting
        simp [ht]
      unfold groupStep1Valid
      have hb : hasBasicInfo (setToelichting gs[i] t) = hasBasicInfo gs[i] := rfl
      have hw : withinLimit (setToelichting gs[i] t) = withinLimit gs[i] := rfl
      rw [hb, hw, h3, hbasic, hlimit]
      rfl
    apply List.all_eq_true.mpr
    intro x hx
    obtain ⟨j, hj, rfl⟩ := List.mem_iff_getElem.mp hx
    have hj2 : j < gs.length := by
      simpa using hj
    rw [List.getElem_set]
    by_cases hij : i = j
    · rw [if_pos hij]
      exact hnew
    · rw [if_neg hij]
      exact hothers j hj2 (fun h => hij h.symm)

/-- Witness for C5: the MBO group with empty justification blocks
step 1; filling in any justification text unblocks it. -/
theorem toelichting_conditional_witness :
    isStep1Valid [w5group] = false ∧
    isStep1Valid ([w5group].set 0 (setToelichting w5group "Niveau 2 zorg")) =
      true := by
  have h := toelichting_conditional [w5group] 0 (by decide) "Niveau 2 zorg"
    (by decide)
  refine ⟨h.1 (Or.inr rfl), h.2 (by decide) (by decide) (by decide) ?_⟩
  intro j hj hne
  exact absurd (by simpa using hj) hne

/-- C1: if the Organisation creation of submitBooking throws, the result
is a failure and the call trace is exactly the one Organisation call —
no Person, Aanmelding or screening-link creation is ever issued. -/
theorem org_failure_fail_fast (bk : Backend) (fd : SubmitFormData)
    (od : OrganisationPayload) (e : ApiError)
    (hod : fd.organisationData = some od)
    (herr : bk.createOrganisation od = .error e) :
    (submitBooking bk fd).1.success = false ∧
    (submitBooking bk fd).2 = [ApiCall.org od] := by
  simp [submitBooking, hod, herr]

/-- Witness for C1: a backend whose Organisation creation throws a
generic server error. -/
theorem org_failure_fail_fast_witness :
    wSubmitData.organisationData =
      some { Name := "Handmatige School", «Type» := [2] } ∧
    w1backend.createOrganisation { Name := "Handmatige School", «Type» := [2] } =
      .error { message := "Serverfout 500" } ∧
    (submitBooking w1backend wSubmitData).1.success = false ∧
    (submitBooking w1backend wSubmitData).2 =
      [ApiCall.org { Name := "Handmatige School", «Type» := [2] }] :=
  ⟨rfl, rfl,
    org_failure_fail_fast w1backend wSubmitData
      { Name := "Handmatige School", «Type» := [2] }
      { message := "Serverfout 500" } rfl rfl⟩

/-- C3: if the Organisation creation throws with the backend's
unique-fields violation text naming Naam or Subnaam, submitBooking
fails with the specific duplicate-school message and no Person creation
call is ever issued. -/
theorem org_duplicate_translated (bk : Backend) (fd : SubmitFormData)
    (od : OrganisationPayload) (e : ApiError)
    (hod : fd.organisationData = some od)
    (herr : bk.createOrganisation od = .error e)
    (hdup : containsStr e.message "Geen unieke waarden voor de velden" = true)
    (hfld : (containsStr e.message "Naam" ||
             containsStr e.message "Subnaam") = true) :
    (submitBooking bk fd).1.success = false ∧
    (submitBooking bk fd).1.error = some duplicateSchoolMsg ∧
    ∀ pd, ApiCall.person pd ∉ (submitBooking bk fd).2 := by
  have hmsg : orgFailureMsg e = duplicateSchoolMsg := by
    unfold orgFailureMsg
    rw [hdup, hfld]
    rfl
  simp [submitBooking, hod, herr, hmsg]

/-- Witness for C3: backend reporting
"Geen unieke waarden voor de velden Naam". -/
theorem org_duplicate_translated_witness :
    containsStr "Geen unieke waarden voor de velden Naam"
      "Geen unieke waarden voor de velden" = true ∧
    containsStr "Geen unieke waarden voor de velden Naam" "Naam" = true ∧
    (submitBooking w3backend wSubmitData).1.success = false ∧
    (submitBooking w3backend wSubmitData).1.error =
      some duplicateSchoolMsg ∧
    ∀ pd, ApiCall.person pd ∉ (submitBooking w3backend wSubmitData).2 := by
  have h := org_duplicate_translated w3backend wSubmitData
    { Name := "Handmatige School", «Type» := [2] }
    { message := "Geen unieke waarden voor de velden Naam" }
    rfl rfl (by decide) (by decide)
  exact ⟨by decide, by decide, h.1, h.2.1, h.2.2⟩

/-- C7 counterexample: a form state with an existing school selected
*and* a complete manual entry is accepted by isStep2Valid, and its
payload carries both a non-null School reference and a non-null
School_invul text. -/
theorem school_resolution_counterexample :
    isStep2Valid w7state = true ∧
    (prepareAanmeldingData w7state).School ≠ none ∧
    (prepareAanmeldingData w7state).School_invul ≠ none := by
  decide

/-- C7 amended: under the invariant the UI maintains (checking "school
is not listed" clears the lookup reference and vice versa), every form
state accepted by isStep2Valid yields a payload in which exactly one of
the School reference and the manual School_invul text is non-null. -/
theorem school_resolution_exclusive (st : BookingFormData)
    (hinv : st.school.School_staat_niet_in_lijst = true →
      st.school.lookupId = none)
    (hvalid : isStep2Valid st = true) :
    ((prepareAanmeldingData st).School.isSome = true ∧
      (prepareAanmeldingData st).School_invul = none) ∨
    ((prepareAanmeldingData st).School = none ∧
      (prepareAanmeldingData st).School_invul.isSome = true) := by
  have hschool : (st.school.lookupId.isSome ||
      (st.school.School_staat_niet_in_lijst &&
       decide (st.school.schoolName.length > 0) &&
       st.school.schoolType.isSome)) = true := by
    unfold isStep2Valid at hvalid
    simp only [Bool.and_eq_true] at hvalid
    exact hvalid.1.1.1.2
  cases hflag : st.school.School_staat_niet_in_lijst with
  | true =>
    right
    have hlk := hinv hflag
    constructor
    · simp [prepareAanmeldingData, hlk]
    · simp [prepareAanmeldingData, hflag]
  | false =>
    left
    have hlk : st.school.lookupId.isSome = true := by
      rw [hflag] at hschool
      simpa using hschool
    constructor
    · simp [prepareAanmeldingData, hlk]
    · simp [prepareAanmeldingData, hflag]

/-- Witness for the amended C7: manual entry active, no lookup
reference; the payload populates School_invul only. -/
theorem school_resolution_exclusive_witness :
    (w7stateManual.school.School_staat_niet_in_lijst = true →
      w7stateManual.school.lookupId = none) ∧
    isStep2Valid w7stateManual = true ∧
    (((prepareAanmeldingData w7stateManual).School.isSome = true ∧
       (prepareAanmeldingData w7stateManual).School_invul = none) ∨
     ((prepareAanmeldingData w7stateManual).School = none ∧
       (prepareAanmeldingData w7stateManual).School_invul.isSome = true)) :=
  ⟨fun _ => rfl, by decide,
    school_resolution_exclusive w7stateManual (fun _ => rfl) (by decide)⟩

theorem find_screenings (num : String → Int) (cap : String → Option Int)
    (gid : String) :
    ∀ l : List String, gid ∈ l → (∀ id ∈ l, toString (num id) = id) →
      (l.map (fun id => ScreeningCap.mk (num id) (cap id))).find?
        (fun s => toString s.id == gid) =
        some (ScreeningCap.mk (num gid) (cap gid)) := by
  intro l
  induction l with
  | nil => simp
  | cons x xs ih =>
    intro hmem hids
    have hx : toString (num x) = x := hids x (List.mem_cons_self x xs)
    rw [List.map_cons]
    by_cases hxg : x = gid
    · subst hxg
      rw [List.find?_cons_of_pos]
      simp [hx]
    · rw [List.find?_cons_of_neg]
      · exact ih ((List.mem_cons.mp hmem).resolve_left
          (fun h => hxg h.symm)) (fun i hi => hids i (List.mem_cons_of_mem x hi))
      · simp [hx, hxg]

/-- C2: when each queried screening id resolves to a single record with
that id and capacity `cap id`, the conflicts list of
checkSeatAvailability contains, in input order, exactly one entry
`{screeningId, available, requested}` per input pair whose non-null
capacity is strictly below that pair's headcount (each pair judged
independently against the same capacity figure, and a null capacity
never producing a conflict), and the overall flag is true iff this list
is empty. -/
theorem seat_check_conflicts
    (fetch : String → Except ApiError (List ScreeningCap))
    (num : String → Int) (cap : String → Option Int)
    (groups : List SeatGroup)
    (hfetch : ∀ id ∈ groups.map (fun g => g.selectedScreeningId),
      fetch id = .ok [ScreeningCap.mk (num id) (cap id)] ∧
      toString (num id) = id) :
    (checkSeatAvailability fetch groups).conflicts =
      specConflicts cap groups ∧
    ((checkSeatAvailability fetch groups).available = true ↔
      (checkSeatAvailability fetch groups).conflicts = []) := by
  have hmemu : ∀ id ∈ uniqueFirst (groups.map (fun g => g.selectedScreeningId)),
      fetch id = .ok [ScreeningCap.mk (num id) (cap id)] ∧
      toString (num id) = id := by
    intro id hid
    exact hfetch id ((mem_uniqueFirst id _).mp hid)
  have hcoll : collectFetches fetch
      (uniqueFirst (groups.map (fun g => g.selectedScreeningId))) =
      .ok ((uniqueFirst (groups.map (fun g => g.selectedScreeningId))).map
        (fun id => [ScreeningCap.mk (num id) (cap id)])) :=
    collectFetches_ok fetch _ _ (fun i hi => (hmemu i hi).1)
  have hkey : checkSeatAvailability fetch groups =
      { available := (specConflicts cap groups).isEmpty
        conflicts := specConflicts cap groups } := by
    unfold checkSeatAvailability
    simp only [hcoll, flatten_map_singleton]
    have hcong : groups.filterMap (fun g =>
        match ((uniqueFirst (groups.map (fun g => g.selectedScreeningId))).map
            (fun id => ScreeningCap.mk (num id) (cap id))).find?
            (fun s => toString s.id == g.selectedScreeningId) with
        | some s =>
          match s.Beschikbare_plekken_educatie with
          | some avail =>
            if avail < g.totalPeople then
              some { screeningId := g.selectedScreeningId
                     available := avail
                     requested := g.totalPeople }
            else none
          | none => none
        | none => none) = specConflicts cap groups := by
      unfold specConflicts
      apply filterMap_congr_mem
      intro g hg
      have hmem : g.selectedScreeningId ∈
          uniqueFirst (groups.map (fun g => g.selectedScreeningId)) :=
        (mem_uniqueFirst _ _).mpr
          (List.mem_map_of_mem (fun g => g.selectedScreeningId) hg)
      rw [find_screenings num cap g.selectedScreeningId _ hmem
        (fun i hi => (hmemu i hi).2)]
    rw [hcong]
  rw [hkey]
  refine ⟨rfl, ?_⟩
  simp [List.isEmpty_iff]

/-- Witness for C2: two groups on a 40-seat screening (50 and 30
requested) and one group on an uncapacitated screening; only the
over-subscribed pair conflicts. -/
theorem seat_check_conflicts_witness :
    (∀ id ∈ w2groups.map (fun g => g.selectedScreeningId),
      w2fetch id = .ok [ScreeningCap.mk (w2num id) (w2cap id)] ∧
      toString (w2num id) = id) ∧
    (checkSeatAvailability w2fetch w2groups).conflicts =
      specConflicts w2cap w2groups ∧
    ((checkSeatAvailability w2fetch w2groups).available = true ↔
      (checkSeatAvailability w2fetch w2groups).conflicts = []) := by
  have hfetch : ∀ id ∈ w2groups.map (fun g => g.selectedScreeningId),
      w2fetch id = .ok [ScreeningCap.mk (w2num id) (w2cap id)] ∧
      toString (w2num id) = id := by
    intro id hid
    simp [w2groups] at hid
    rcases hid with rfl | rfl | rfl <;> exact ⟨rfl, rfl⟩
  exact ⟨hfetch, seat_check_conflicts w2fetch w2num w2cap w2groups hfetch⟩

/-- C10: if any capacity query of checkSeatAvailability throws, the
exception is swallowed and the result is `available = false` with an
empty conflicts list. -/
theorem fetch_failure_blocks
    (fetch : String → Except ApiError (List ScreeningCap))
    (groups : List SeatGroup)
    (h : ∃ id ∈ groups.map (fun g => g.selectedScreeningId),
      ∃ e, fetch id = .error e) :
    checkSeatAvailability fetch groups =
      { available := false, conflicts := [] } := by
  obtain ⟨id, hid, e, he⟩ := h
  obtain ⟨e2, h2⟩ := collectFetches_error fetch id e he
    (uniqueFirst (groups.map (fun g => g.selectedScreeningId)))
    ((mem_uniqueFirst id _).mpr hid)
  unfold checkSeatAvailability
  simp only [h2]

/-- Witness for C10: every query fails with a network error. -/
theorem fetch_failure_blocks_witness :
    (∃ id ∈ w2groups.map (fun g => g.selectedScreeningId),
      ∃ e, w10fetch id = .error e) ∧
    checkSeatAvailability w10fetch w2groups =
      { available := false, conflicts := [] } :=
  ⟨⟨"5", by simp [w2groups], { message := "network down" }, rfl⟩,
    fetch_failure_blocks w10fetch w2groups
      ⟨"5", by simp [w2groups], { message := "network down" }, rfl⟩⟩

end MtmForm
